import Mathlib

/-!
Verification of the multi-backend database connector
(`src/streamlit_app.py`).

The Python source is shallowly embedded: strings that undergo
character-level processing are modelled as `List Char`; the native
database drivers (cx_Oracle, pyodbc, simple_salesforce) are modelled as
records of injected results (`Except String _` per driver call); the
side effects of driver calls are recorded as an explicit event trace.
Python exceptions are modelled by `Except`, with each `try/except`
boundary translated to an explicit match on the error case.
-/

set_option autoImplicit false

namespace DbConnector

abbrev Chars := List Char

/-- The single-quote character, `chr(39)`. -/
def squote : Char := Char.ofNat 39

/-- Python `s.split(sep, 1)`: split at the first occurrence of `sep`,
returning `none` when `sep` does not occur. -/
def splitFirst (sep : Char) : Chars → Option (Chars × Chars)
  | [] => none
  | c :: cs =>
    if c = sep then some ([], cs)
    else
      match splitFirst sep cs with
      | some (a, b) => some (c :: a, b)
      | none => none

/-- Python `int(s)` on the strings that reach it in this program
(decimal digit sequences); `none` models the `ValueError` raised on
other inputs. -/
def natFromChars? (l : Chars) : Option Nat :=
  if l = [] then none
  else if l.all (fun c => c.isDigit) then
    some (l.foldl (fun acc c => acc * 10 + (c.toNat - 48)) 0)
  else none

/-- Python `x or d` for an optional integer (`None` and `0` are falsy). -/
def pyOrNat : Option Nat → Nat → Nat
  | none, d => d
  | some 0, d => d
  | some (k + 1), _ => k + 1

/-- Python `x or d` for an optional string (`None` and `""` are falsy). -/
def pyOrChars : Option Chars → Chars → Chars
  | none, d => d
  | some [], d => d
  | some (c :: cs), _ => c :: cs

/-- Python `x or d` for an optional `String`. -/
def pyOrStr (x : Option String) (d : String) : String :=
  match x with
  | none => d
  | some s => if s = "" then d else s

/-- Python truthiness of an optional string. -/
def pyTruthy (x : Option String) : Bool :=
  match x with
  | none => false
  | some s => s ≠ ""

/-- Wrap a string in single quotes, as the f-string SQL fragments
`'{value}'` in the source do. -/
def sq (s : String) : String :=
  String.mk (squote :: (s.data ++ [squote]))

/-- Text of a Python `KeyError` for a missing kwarg, as produced by
`str(e)` in the `except` blocks. -/
def keyErrorMsg (k : String) : String :=
  String.mk (squote :: (k.data ++ [squote]))

/-! Oracle host parsing (`DatabaseConnector.connect_oracle`, lines 127-148) -/

/-- The `(host, port, service_name)` triple handed to
`cx_Oracle.makedsn`. -/
structure OracleTarget where
  host : Chars
  port : Nat
  service : Chars
deriving DecidableEq, Repr

/-- The host-string parsing performed at the top of `connect_oracle`:
split on the first `/` to find a service name; inside that branch split
the head on the first `:` to find a port (`int(port)`, defaulting to
1521 when absent); with no `/`, fall back to `service_name or 'ORCL'`
and `port or 1521`. `Except.error` models the `ValueError` from
`int(port)` on a non-numeric port. -/
def parseOracleHost (host : Chars) (port : Option Nat) (service_name : Option Chars) :
    Except String OracleTarget :=
  match splitFirst '/' host with
  | some (host_port, service) =>
    match splitFirst ':' host_port with
    | some (h, p) =>
      match natFromChars? p with
      | some pn => .ok ⟨h, pn, service⟩
      | none => .error "invalid literal for int()"
    | none => .ok ⟨host_port, 1521, service⟩
  | none => .ok ⟨host, pyOrNat port 1521, pyOrChars service_name (String.toList "ORCL")⟩

/-! Driver model and event traces

The native drivers are opaque collaborators; each call either succeeds
or raises.  A driver record injects one outcome per call site, and the
embedding records the calls it performs as a trace of events. -/

/-- Observable driver-level events performed by a connector operation. -/
inductive DbEvent
  | connectAttempt
  | connectOpen
  | execCall
  | fetchCall
  | cursorClose
  | connClose
deriving DecidableEq, Repr

/-- Number of `conn.close()` calls in a trace. -/
def closeCount : List DbEvent → Nat
  | [] => 0
  | e :: tr => (if e = DbEvent.connClose then 1 else 0) + closeCount tr

/-- Injected outcomes for the cx_Oracle driver: connecting, executing
the statement, and fetching, plus the column names exposed by
`cursor.description`. -/
structure OracleDriver where
  connectResult : Except String Unit
  execResult : Except String Unit
  descCols : List String
  fetchRows : Except String (List (List String))
deriving Repr

/-- Injected outcomes for the pyodbc (SAP HANA) driver. -/
structure SapDriver where
  connectResult : Except String Unit
  execResult : Except String Unit
  descCols : List String
  fetchRows : Except String (List (List String))
deriving Repr

/-- Injected outcomes for the simple_salesforce client: constructing the
`Salesforce` object and running `sf.query`, which returns the record
list of the response. -/
structure SfDriver where
  connectResult : Except String Unit
  queryRecords : Except String (List (List (String × String)))
deriving Repr

/-- One driver record per backend kind. -/
structure Env where
  oracle : OracleDriver
  sap : SapDriver
  sf : SfDriver
deriving Repr

/-- The `**kwargs` bag handed to `test_connection` / `execute_query`:
`username` and `password` are always present; `host` and
`security_token` only on the branches that set them. -/
structure Kwargs where
  username : Chars
  password : Chars
  host : Option Chars
  security_token : Option Chars
deriving DecidableEq, Repr

/-- `DatabaseConnector.connect_oracle` (lines 127-148): parse the host
string, then attempt `cx_Oracle.connect`; any exception is re-raised
with the `Oracle connection failed: ` prefix.  The returned value is the
parsed target (standing for the live connection); the trace records the
connect attempt and, on success, the opened connection. -/
def connect_oracle (d : OracleDriver) (host : Chars) (port : Option Nat)
    (service_name : Option Chars) : Except String OracleTarget × List DbEvent :=
  match parseOracleHost host port service_name with
  | .error e => (.error ("Oracle connection failed: " ++ e), [])
  | .ok t =>
    match d.connectResult with
    | .error e => (.error ("Oracle connection failed: " ++ e), [.connectAttempt])
    | .ok _ => (.ok t, [.connectAttempt, .connectOpen])

/-- Host/port split at the top of `connect_sap` (lines 160-172): if the
host contains `:`, the substring after the first `:` replaces the port
(kept as a string, as the f-string interpolation does). -/
def sapHostPort (host : Chars) (port : Chars) : Chars × Chars :=
  match splitFirst ':' host with
  | some (h, p) => (h, p)
  | none => (host, port)

/-- The pyodbc connection string built by `connect_sap`:
`DRIVER={HDBODBC};SERVERNODE=host:port;UID=username;PWD=password`. -/
def sap_connection_string (host port username password : Chars) : Chars :=
  String.toList "DRIVER=\x7bHDBODBC\x7d;SERVERNODE=" ++ host ++ [':'] ++ port
    ++ String.toList ";UID=" ++ username ++ String.toList ";PWD=" ++ password

/-- `DatabaseConnector.connect_sap`: build the connection string and
attempt `pyodbc.connect`; exceptions are re-raised with the
`SAP connection failed: ` prefix. -/
def connect_sap (d : SapDriver) (host : Chars) (port : Chars)
    (username password : Chars) : Except String Chars × List DbEvent :=
  let hp := sapHostPort host port
  let cs := sap_connection_string hp.1 hp.2 username password
  match d.connectResult with
  | .error e => (.error ("SAP connection failed: " ++ e), [.connectAttempt])
  | .ok _ => (.ok cs, [.connectAttempt, .connectOpen])

/-- The credential actually sent by `connect_salesforce`: password with
the security token appended. -/
def sf_password_with_token (password security_token : Chars) : Chars :=
  password ++ security_token

/-- `DatabaseConnector.connect_salesforce` (lines 150-158): construct
the `Salesforce` client with username and password+token; exceptions are
re-raised with the `Salesforce connection failed: ` prefix. -/
def connect_salesforce (d : SfDriver) (username password security_token : Chars) :
    Except String Unit × List DbEvent :=
  let _cred := sf_password_with_token password security_token
  let _user := username
  match d.connectResult with
  | .error e => (.error ("Salesforce connection failed: " ++ e), [.connectAttempt])
  | .ok _ => (.ok (), [.connectAttempt, .connectOpen])

/-- `DatabaseConnector.test_connection` (lines 174-220).  The whole body
is one `try`; the `except` clause turns any raised exception `e` into
`(False, str(e))`.  Missing kwargs raise `KeyError`, caught by the same
clause.  Note that the `close` calls sit on the straight-line success
path only: an exception from execute or fetch jumps to the handler
without closing. -/
def test_connection (env : Env) (database_type : String) (kw : Kwargs) :
    (Bool × String) × List DbEvent :=
  if database_type = "JDE" then
    match kw.host with
    | none => ((false, keyErrorMsg "host"), [])
    | some h =>
      match connect_oracle env.oracle h (some 1521) none with
      | (.error e, tr) => ((false, e), tr)
      | (.ok _, tr) =>
        match env.oracle.execResult with
        | .error e => ((false, e), tr ++ [.execCall])
        | .ok _ =>
          match env.oracle.fetchRows with
          | .error e => ((false, e), tr ++ [.execCall, .fetchCall])
          | .ok _ =>
            ((true, "Connection successful"),
              tr ++ [.execCall, .fetchCall, .cursorClose, .connClose])
  else if database_type = "Salesforce" then
    match kw.security_token with
    | none => ((false, keyErrorMsg "security_token"), [])
    | some tok =>
      match connect_salesforce env.sf kw.username kw.password tok with
      | (.error e, tr) => ((false, e), tr)
      | (.ok _, tr) =>
        match env.sf.queryRecords with
        | .error e => ((false, e), tr ++ [.execCall])
        | .ok _ => ((true, "Connection successful"), tr ++ [.execCall])
  else if database_type = "SAP" then
    match kw.host with
    | none => ((false, keyErrorMsg "host"), [])
    | some h =>
      match connect_sap env.sap h (String.toList "30015") kw.username kw.password with
      | (.error e, tr) => ((false, e), tr)
      | (.ok _, tr) =>
        match env.sap.execResult with
        | .error e => ((false, e), tr ++ [.execCall])
        | .ok _ =>
          match env.sap.fetchRows with
          | .error e => ((false, e), tr ++ [.execCall, .fetchCall])
          | .ok _ =>
            ((true, "Connection successful"),
              tr ++ [.execCall, .fetchCall, .cursorClose, .connClose])
  else ((false, "Unsupported database type"), [])

/-- Result tables, mirroring the three ways the source builds a pandas
DataFrame: from SQL rows with explicit columns, from Salesforce record
dicts, or the empty `pd.DataFrame()` returned for zero rows. -/
inductive DataFrame
  | fromRows (cols : List String) (rows : List (List String))
  | fromRecords (recs : List (List (String × String)))
  | emptyDF
deriving DecidableEq, Repr

/-- Second component of `execute_query`'s return value: a DataFrame on
success, an error-message string on failure. -/
inductive ExecPayload
  | table (df : DataFrame)
  | message (s : String)
deriving DecidableEq, Repr

/-- Per-record metadata stripping in the Salesforce branch: drop keys
starting with `attributes`. -/
def clean_record (r : List (String × String)) : List (String × String) :=
  r.filter (fun kv => ¬ kv.1.startsWith "attributes")

/-- `DatabaseConnector.execute_query` (lines 222-300).  The whole body
is one `try`; the `except` clause returns
`(False, "Query execution failed: " + str(e), 0)`.  On the SQL
backends, `cursor.close()` and `conn.close()` run after the fetch and
before the row-count branch; zero rows yield `(True, pd.DataFrame(), 0)`. -/
def execute_query (env : Env) (database_type : String) (_query : String) (kw : Kwargs) :
    (Bool × ExecPayload × Nat) × List DbEvent :=
  if database_type = "JDE" then
    match kw.host with
    | none => ((false, .message ("Query execution failed: " ++ keyErrorMsg "host"), 0), [])
    | some h =>
      match connect_oracle env.oracle h (some 1521) none with
      | (.error e, tr) => ((false, .message ("Query execution failed: " ++ e), 0), tr)
      | (.ok _, tr) =>
        match env.oracle.execResult with
        | .error e => ((false, .message ("Query execution failed: " ++ e), 0), tr ++ [.execCall])
        | .ok _ =>
          match env.oracle.fetchRows with
          | .error e =>
            ((false, .message ("Query execution failed: " ++ e), 0), tr ++ [.execCall, .fetchCall])
          | .ok rows =>
            let tr2 := tr ++ [.execCall, .fetchCall, .cursorClose, .connClose]
            if rows.isEmpty then ((true, .table .emptyDF, 0), tr2)
            else ((true, .table (.fromRows env.oracle.descCols rows), rows.length), tr2)
  else if database_type = "Salesforce" then
    match kw.security_token with
    | none =>
      ((false, .message ("Query execution failed: " ++ keyErrorMsg "security_token"), 0), [])
    | some tok =>
      match connect_salesforce env.sf kw.username kw.password tok with
      | (.error e, tr) => ((false, .message ("Query execution failed: " ++ e), 0), tr)
      | (.ok _, tr) =>
        match env.sf.queryRecords with
        | .error e => ((false, .message ("Query execution failed: " ++ e), 0), tr ++ [.execCall])
        | .ok records =>
          let tr2 := tr ++ [.execCall]
          if records.isEmpty then ((true, .table .emptyDF, 0), tr2)
          else
            let recs := records.map clean_record
            ((true, .table (.fromRecords recs), recs.length), tr2)
  else if database_type = "SAP" then
    match kw.host with
    | none => ((false, .message ("Query execution failed: " ++ keyErrorMsg "host"), 0), [])
    | some h =>
      match connect_sap env.sap h (String.toList "30015") kw.username kw.password with
      | (.error e, tr) => ((false, .message ("Query execution failed: " ++ e), 0), tr)
      | (.ok _, tr) =>
        match env.sap.execResult with
        | .error e => ((false, .message ("Query execution failed: " ++ e), 0), tr ++ [.execCall])
        | .ok _ =>
          match env.sap.fetchRows with
          | .error e =>
            ((false, .message ("Query execution failed: " ++ e), 0), tr ++ [.execCall, .fetchCall])
          | .ok rows =>
            let tr2 := tr ++ [.execCall, .fetchCall, .cursorClose, .connClose]
            if rows.isEmpty then ((true, .table .emptyDF, 0), tr2)
            else ((true, .table (.fromRows env.sap.descCols rows), rows.length), tr2)
  else ((false, .message "Unsupported database type", 0), [])

/-! Backend registry (`DATABASE_CONFIGS`, lines 35-76) -/

/-- One backend configuration template. -/
structure DatabaseConfig where
  driver : String
  url_format : String
  url_placeholder : String
  pool_placeholder : String
  sample_tables : List String
  sample_query : String
  has_token : Bool
  library_required : String
  available : Bool
deriving DecidableEq, Repr

/-- The static `DATABASE_CONFIGS` dict, as a lookup function.  The
`available` flags are the import-probe results, parameters of the
process environment. -/
def DATABASE_CONFIGS (oracleAvailable salesforceAvailable pyodbcAvailable : Bool)
    (kind : String) : Option DatabaseConfig :=
  if kind = "JDE" then
    some ⟨"oracle.jdbc.driver.OracleDriver", "\x7b\x7d:1521/\x7b\x7d",
      "host:port/service_name (e.g., 10.25.3.5:1521/e920pdb)", "jde-dev",
      ["TESTDTA.F574211", "TESTDTA.F0101", "TESTDTA.F4211", "TESTDTA.F0411", "TESTDTA.F03B11"],
      "SELECT * FROM TESTDTA.F0101 WHERE ROWNUM <= 5", false, "cx_Oracle", oracleAvailable⟩
  else if kind = "SAP" then
    some ⟨"com.sap.db.jdbc.Driver", "\x7b\x7d:30015",
      "host:port (e.g., sap-server:30015)", "sap-dev",
      ["MARA", "VBAK", "VBAP", "KNA1", "BKPF"],
      "SELECT TOP 5 * FROM MARA", false, "pyodbc or hdbcli", pyodbcAvailable⟩
  else if kind = "Salesforce" then
    some ⟨"salesforce_api", "https://login.salesforce.com",
      "Not applicable for Salesforce", "salesforce-dev",
      ["Account", "Contact", "Opportunity", "Lead", "Case"],
      "SELECT Id, Name FROM Account LIMIT 5", true, "simple-salesforce", salesforceAvailable⟩
  else none

/-! Connection registry (`st.session_state.db_connections`) -/

/-- The per-connection dict built by `save_database_connection`
(lines 501-510). -/
structure ConnInfo where
  database_type : String
  host : String
  username : String
  password : String
  security_token : Option String
  status : String
deriving DecidableEq, Repr

/-- The in-memory registry `st.session_state.db_connections`: a Python
dict, modelled as an insertion-ordered association list. -/
abbrev Registry := List (String × ConnInfo)

/-- Dict assignment `d[p] = r`: overwrite in place when the key exists,
otherwise append. -/
def registryInsert : Registry → String → ConnInfo → Registry
  | [], p, r => [(p, r)]
  | kv :: rest, p, r =>
    if kv.1 = p then (p, r) :: rest
    else kv :: registryInsert rest p r

/-- Dict lookup `d[p]`, as an `Option`. -/
def registryGet : Registry → String → Option ConnInfo
  | [], _ => none
  | kv :: rest, p => if kv.1 = p then some kv.2 else registryGet rest p

/-- The `connection_info` dict assembled by `save_database_connection`:
host falls back to `'salesforce.com'`, status is always `'active'`, and
the `security_token` key is added only when the token is truthy. -/
def connection_info (database_type : String) (host : Option String)
    (username password : String) (security_token : Option String) : ConnInfo :=
  ⟨database_type, pyOrStr host "salesforce.com", username, password,
    if pyTruthy security_token then security_token else none, "active"⟩

/-- The MERGE (upsert) statement sent to the metadata store by
`save_database_connection` (lines 475-495), assembled by f-string
interpolation of pool name, database type, host and username only. -/
def merge_statement (pool_name database_type host username : String) : String :=
  "MERGE INTO DB_CONNECTION_METADATA AS target USING (SELECT "
    ++ sq pool_name ++ " AS pool_name, "
    ++ sq database_type ++ " AS database_type, "
    ++ sq host ++ " AS host, "
    ++ sq username ++ " AS username, "
    ++ sq "active" ++ " AS status) AS source ON target.pool_name = source.pool_name "
    ++ "WHEN MATCHED THEN UPDATE SET database_type = source.database_type, "
    ++ "host = source.host, username = source.username, status = source.status, "
    ++ "last_used = CURRENT_TIMESTAMP() "
    ++ "WHEN NOT MATCHED THEN INSERT (pool_name, database_type, host, username, status) "
    ++ "VALUES (source.pool_name, source.database_type, source.host, "
    ++ "source.username, source.status)"

/-- `save_database_connection` (lines 469-530): the upsert statement
sent to the durable store, and the updated in-memory registry. -/
def save_database_connection (m : Registry) (pool_name database_type : String)
    (host : Option String) (username password : String)
    (security_token : Option String) : String × Registry :=
  (merge_statement pool_name database_type (pyOrStr host "salesforce.com") username,
    registryInsert m pool_name
      (connection_info database_type host username password security_token))

/-! Form handlers in `main` (lines 423-436) and
`test_database_connection` (lines 446-467) -/

/-- Outcome of the save-connection submit handler. -/
inductive SaveOutcome
  | validationError (msg : String)
  | saved (statement : String) (m : Registry)
deriving DecidableEq, Repr

/-- The `connect_submitted` branch of `main`: Salesforce requires pool
name, username, password and token non-blank; other kinds require pool
name, host, username and password non-blank; on a blank field the
handler stops with an error and neither upserts nor touches the
registry. -/
def handle_save (m : Registry) (database_type : String) (pool_name : String)
    (host : Option String) (username password : String)
    (security_token : Option String) : SaveOutcome :=
  if database_type = "Salesforce" then
    if pool_name ≠ "" ∧ username ≠ "" ∧ password ≠ "" ∧ pyTruthy security_token then
      .saved (save_database_connection m pool_name database_type none
          username password security_token).1
        (save_database_connection m pool_name database_type none
          username password security_token).2
    else .validationError "Please fill in all required fields"
  else
    if pool_name ≠ "" ∧ pyTruthy host ∧ username ≠ "" ∧ password ≠ "" then
      .saved (save_database_connection m pool_name database_type host
          username password none).1
        (save_database_connection m pool_name database_type host
          username password none).2
    else .validationError "Please fill in all required fields"

/-- The `test_submitted` branch of `main` together with
`test_database_connection`: the kwargs bag is assembled (token for
Salesforce, host otherwise) and handed straight to
`DatabaseConnector.test_connection` — no blank-field validation occurs
on this path. -/
def handle_test (env : Env) (database_type : String) (host : Option String)
    (username password : String) (security_token : String) :
    (Bool × String) × List DbEvent :=
  let kw : Kwargs :=
    if database_type = "Salesforce" then
      ⟨username.data, password.data, none, some security_token.data⟩
    else
      ⟨username.data, password.data, (host.getD "").data |> some, none⟩
  test_connection env database_type kw

/-! Query history logging (`execute_database_query`, lines 655-683) -/

/-- Python `query_text.replace("'", "''")`: double every single quote. -/
def escape_quotes : Chars → Chars
  | [] => []
  | c :: cs => if c = squote then c :: c :: escape_quotes cs else c :: escape_quotes cs

/-- Python `s.replace("''", "'")`: collapse non-overlapping pairs of
single quotes left to right — the inverse replacement. -/
def unescape_quotes : Chars → Chars
  | [] => []
  | [c] => [c]
  | a :: b :: rest =>
    if a = squote ∧ b = squote then a :: unescape_quotes rest
    else a :: unescape_quotes (b :: rest)

/-- The INSERT statement logged into `DB_QUERY_HISTORY` after a
successful query: the query text is embedded after escaping quotes. -/
def history_insert_success (pool_name : String) (query_text : String)
    (row_count : Nat) : String :=
  "INSERT INTO DB_QUERY_HISTORY (pool_name, query_text, success, row_count) VALUES ("
    ++ sq pool_name ++ ", " ++ String.mk (squote :: (escape_quotes query_text.data ++ [squote]))
    ++ ", TRUE, " ++ toString row_count ++ ")"

/-! Specification-side formulation of the error boundary

The spec states that every error raised by the underlying
connect/execute/fetch call is caught once at the operation boundary and
returned as a failure value.  The following functions give, per backend,
the first exception the operation body would raise (`none` when every
step succeeds); the boundary theorems compare the embedded operations
against them. -/

/-- First exception raised inside the JDE branch of an operation body:
missing `host` kwarg, host-parse failure, connect failure, execute
failure, then fetch failure. -/
def jdeRaise (d : OracleDriver) (host : Option Chars) : Option String :=
  match host with
  | none => some (keyErrorMsg "host")
  | some h =>
    match parseOracleHost h (some 1521) none with
    | .error e => some ("Oracle connection failed: " ++ e)
    | .ok _ =>
      match d.connectResult with
      | .error e => some ("Oracle connection failed: " ++ e)
      | .ok _ =>
        match d.execResult with
        | .error e => some e
        | .ok _ =>
          match d.fetchRows with
          | .error e => some e
          | .ok _ => none

/-- First exception raised inside the Salesforce branch. -/
def sfRaise (d : SfDriver) (security_token : Option Chars) : Option String :=
  match security_token with
  | none => some (keyErrorMsg "security_token")
  | some _ =>
    match d.connectResult with
    | .error e => some ("Salesforce connection failed: " ++ e)
    | .ok _ =>
      match d.queryRecords with
      | .error e => some e
      | .ok _ => none

/-- First exception raised inside the SAP branch. -/
def sapRaise (d : SapDriver) (host : Option Chars) : Option String :=
  match host with
  | none => some (keyErrorMsg "host")
  | some _ =>
    match d.connectResult with
    | .error e => some ("SAP connection failed: " ++ e)
    | .ok _ =>
      match d.execResult with
      | .error e => some e
      | .ok _ =>
        match d.fetchRows with
        | .error e => some e
        | .ok _ => none

/-- Sample all-succeeding Oracle driver returning no rows. -/
def emptyOracle : OracleDriver := ⟨.ok (), .ok (), ["RECORD_COUNT"], .ok []⟩

/-- Sample all-succeeding SAP driver returning no rows. -/
def emptySap : SapDriver := ⟨.ok (), .ok (), ["RECORD_COUNT"], .ok []⟩

/-- Sample all-succeeding Salesforce driver returning no records. -/
def emptySf : SfDriver := ⟨.ok (), .ok []⟩

/-- Environment in which every driver call succeeds with an empty
result set. -/
def emptyEnv : Env := ⟨emptyOracle, emptySap, emptySf⟩

/-- Environment whose Oracle driver connects but fails on execute, as a
query against a missing table would. -/
def execFailEnv : Env :=
  ⟨⟨.ok (), .error "ORA-00942: table or view does not exist", [], .ok []⟩,
    emptySap, emptySf⟩

/-! Helper lemmas -/

theorem splitFirst_eq_none (sep : Char) (l : Chars) :
    splitFirst sep l = none ↔ sep ∉ l := by
  induction l with
  | nil => simp [splitFirst]
  | cons c cs ih =>
    by_cases hc : c = sep
    · subst hc
      simp [splitFirst]
    · cases h : splitFirst sep cs with
      | none =>
        simp only [splitFirst, if_neg hc, h, List.mem_cons]
        constructor
        · intro _ hmem
          rcases hmem with hmem | hmem
          · exact hc hmem.symm
          · exact (ih.mp h) hmem
        · intro _; trivial
      | some ab =>
        simp only [splitFirst, if_neg hc, h, List.mem_cons]
        constructor
        · intro habs; exact absurd habs (by simp)
        · intro hmem
          exfalso
          apply hmem
          right
          by_contra hnot
          exact absurd (ih.mpr hnot) (by simp [h])

theorem registryGet_insert (m : Registry) (p : String) (r : ConnInfo) :
    registryGet (registryInsert m p r) p = some r := by
  induction m with
  | nil => simp [registryInsert, registryGet]
  | cons kv rest ih =>
    by_cases h : kv.1 = p
    · simp [registryInsert, registryGet, h]
    · simp [registryInsert, registryGet, h, ih]

theorem escape_quotes_no_quote (l : Chars) (h : squote ∉ l) :
    escape_quotes l = l := by
  induction l with
  | nil => rfl
  | cons c cs ih =>
    simp only [List.mem_cons] at h
    push_neg at h
    have hc : c ≠ squote := fun hcc => h.1 hcc.symm
    simp [escape_quotes, hc, ih h.2]

theorem unescape_quotes_cons_ne (c : Char) (t : Chars) (hc : c ≠ squote) :
    unescape_quotes (c :: t) = c :: unescape_quotes t := by
  cases t with
  | nil => rfl
  | cons b r => simp [unescape_quotes, hc]

theorem unescape_escape (l : Chars) :
    unescape_quotes (escape_quotes l) = l := by
  induction l with
  | nil => rfl
  | cons c cs ih =>
    by_cases hc : c = squote
    · subst hc
      simp [escape_quotes, unescape_quotes, ih]
    · rw [escape_quotes, if_neg hc, unescape_quotes_cons_ne c _ hc, ih]

/-! Claim theorems -/

/-- C2: the Oracle-family host parser maps `"10.1.1.1:1521/ORCLPDB"` to
host `10.1.1.1`, port 1521, service `ORCLPDB`; for any input containing
no `/` separator with no service name supplied it uses the default
service placeholder `ORCL` and defaults the port to 1521 when no port is
given (concretely so for `"10.1.1.1:1521"`). -/
theorem claim_C2 :
    parseOracleHost (String.toList "10.1.1.1:1521/ORCLPDB") (some 1521) none =
      .ok ⟨String.toList "10.1.1.1", 1521, String.toList "ORCLPDB"⟩ ∧
    (∀ h : Chars, '/' ∉ h →
      parseOracleHost h none none = .ok ⟨h, 1521, String.toList "ORCL"⟩) ∧
    parseOracleHost (String.toList "10.1.1.1:1521") none none =
      .ok ⟨String.toList "10.1.1.1:1521", 1521, String.toList "ORCL"⟩ := by
  refine ⟨by rfl, ?_, by rfl⟩
  intro h hm
  have hs : splitFirst '/' h = none := (splitFirst_eq_none '/' h).mpr hm
  simp [parseOracleHost, hs, pyOrNat, pyOrChars]

/-- Witness for C2 at a concrete slash-free host. -/
theorem claim_C2_witness :
    parseOracleHost (String.toList "sap-server:30015") none none =
      .ok ⟨String.toList "sap-server:30015", 1521, String.toList "ORCL"⟩ :=
  claim_C2.2.1 (String.toList "sap-server:30015") (by decide)

/-- C4: registering a record under a pool name and looking that name up
returns exactly that record (hence its kind and host); registering a
second record under the same name overwrites the first, so lookup
returns only the second record's values; and the registry written by
`save_database_connection` satisfies the same round trip. -/
theorem claim_C4 : ∀ (m : Registry) (p : String) (r r2 : ConnInfo),
    registryGet (registryInsert m p r) p = some r ∧
    registryGet (registryInsert (registryInsert m p r) p r2) p = some r2 ∧
    (∀ (dt : String) (host : Option String) (u pw : String) (tok : Option String),
      registryGet (save_database_connection m p dt host u pw tok).2 p =
        some (connection_info dt host u pw tok)) := by
  intro m p r r2
  refine ⟨registryGet_insert m p r, registryGet_insert _ p r2, ?_⟩
  intro dt host u pw tok
  exact registryGet_insert m p _

/-- C5: the history-log escaping doubles every single quote in the query
text, the inverse replacement recovers the original text exactly, a
quote-free query is embedded unchanged, and the logged INSERT statement
embeds precisely the escaped text. -/
theorem claim_C5 : ∀ q : Chars,
    unescape_quotes (escape_quotes q) = q ∧
    (squote ∉ q → escape_quotes q = q) ∧
    (∀ (pool : String) (n : Nat),
      history_insert_success pool (String.mk q) n =
        "INSERT INTO DB_QUERY_HISTORY (pool_name, query_text, success, row_count) VALUES ("
          ++ sq pool ++ ", " ++ String.mk (squote :: (escape_quotes q ++ [squote]))
          ++ ", TRUE, " ++ toString n ++ ")") := by
  intro q
  exact ⟨unescape_escape q, escape_quotes_no_quote q, fun pool n => rfl⟩

/-- Witness for C5 at a quote-free query text. -/
theorem claim_C5_witness :
    escape_quotes (String.toList "SELECT 1 FROM DUAL") =
      String.toList "SELECT 1 FROM DUAL" :=
  (claim_C5 (String.toList "SELECT 1 FROM DUAL")).2.1 (by decide)

/-- C7: the upsert statement sent to the durable store is a function of
pool name, kind, host and username alone — it is unchanged under any
change of password or security token (so neither secret ever flows into
it), and it equals the metadata-only `merge_statement`. -/
theorem claim_C7 : ∀ (m m' : Registry) (pool dt : String) (host : Option String)
    (u pw pw' : String) (tok tok' : Option String),
    (save_database_connection m pool dt host u pw tok).1 =
      (save_database_connection m' pool dt host u pw' tok').1 ∧
    (save_database_connection m pool dt host u pw tok).1 =
      merge_statement pool dt (pyOrStr host "salesforce.com") u := by
  intro m m' pool dt host u pw pw' tok tok'
  exact ⟨rfl, rfl⟩

/-- C8: for every availability environment, `lookup(kind)` returns a
template whose `has_token` flag is true iff kind is `Salesforce`, and
the set of kinds with a template is exactly `JDE`, `SAP`,
`Salesforce` (the lookup is a function, so at most one template per
kind). -/
theorem claim_C8 : ∀ (oa sa pa : Bool),
    (∀ (k : String) (c : DatabaseConfig),
      DATABASE_CONFIGS oa sa pa k = some c → (c.has_token = true ↔ k = "Salesforce")) ∧
    (∀ k : String,
      (DATABASE_CONFIGS oa sa pa k).isSome = true ↔
        (k = "JDE" ∨ k = "SAP" ∨ k = "Salesforce")) := by
  intro oa sa pa
  constructor
  · intro k c h
    unfold DATABASE_CONFIGS at h
    split_ifs at h with h1 h2 h3
    · cases h
      subst h1
      simp
    · cases h
      subst h2
      simp
    · cases h
      subst h3
      simp
  · intro k
    unfold DATABASE_CONFIGS
    split_ifs with h1 h2 h3
    · simp [h1]
    · simp [h2]
    · simp [h3]
    · simp [h1, h2, h3]

/-- Witness for C8: the Salesforce template exists. -/
theorem claim_C8_witness :
    (DATABASE_CONFIGS true true true "Salesforce").isSome = true :=
  ((claim_C8 true true true).2 "Salesforce").mpr (Or.inr (Or.inr rfl))

/-- C9: for a kind outside the three supported variants, both
`test_connection` and `execute_query` return failure with the
unsupported-type message and an empty trace — no connection is
attempted. -/
theorem claim_C9 : ∀ (env : Env) (kw : Kwargs) (q : String) (kind : String),
    kind ≠ "JDE" → kind ≠ "Salesforce" → kind ≠ "SAP" →
    test_connection env kind kw = ((false, "Unsupported database type"), []) ∧
    execute_query env kind q kw =
      ((false, .message "Unsupported database type", 0), []) := by
  intro env kw q kind h1 h2 h3
  constructor
  · unfold test_connection
    rw [if_neg h1, if_neg h2, if_neg h3]
  · unfold execute_query
    rw [if_neg h1, if_neg h2, if_neg h3]

/-- Witness for C9 at the concrete kind `MySQL`. -/
theorem claim_C9_witness :
    test_connection emptyEnv "MySQL" ⟨[], [], none, none⟩ =
      ((false, "Unsupported database type"), []) ∧
    execute_query emptyEnv "MySQL" "SELECT 1" ⟨[], [], none, none⟩ =
      ((false, .message "Unsupported database type", 0), []) :=
  claim_C9 emptyEnv ⟨[], [], none, none⟩ "SELECT 1" "MySQL"
    (by decide) (by decide) (by decide)

/-- C10: when every driver call succeeds and the backend returns zero
rows, `execute_query` still reports success: `(True, empty table, 0)`,
for each of the three backend kinds. -/
theorem claim_C10 : ∀ (env : Env) (q : String) (u p h tok : Chars),
    (∀ t : OracleTarget, parseOracleHost h (some 1521) none = .ok t →
      env.oracle.connectResult = .ok () → env.oracle.execResult = .ok () →
      env.oracle.fetchRows = .ok [] →
      execute_query env "JDE" q ⟨u, p, some h, none⟩ =
        ((true, .table .emptyDF, 0),
          [.connectAttempt, .connectOpen, .execCall, .fetchCall,
            .cursorClose, .connClose])) ∧
    (env.sf.connectResult = .ok () → env.sf.queryRecords = .ok [] →
      execute_query env "Salesforce" q ⟨u, p, none, some tok⟩ =
        ((true, .table .emptyDF, 0),
          [.connectAttempt, .connectOpen, .execCall])) ∧
    (env.sap.connectResult = .ok () → env.sap.execResult = .ok () →
      env.sap.fetchRows = .ok [] →
      execute_query env "SAP" q ⟨u, p, some h, none⟩ =
        ((true, .table .emptyDF, 0),
          [.connectAttempt, .connectOpen, .execCall, .fetchCall,
            .cursorClose, .connClose])) := by
  intro env q u p h tok
  refine ⟨?_, ?_, ?_⟩
  · intro t hp hc he hf
    simp [execute_query, connect_oracle, hp, hc, he, hf]
  · intro hc hq
    simp [execute_query, connect_salesforce, hc, hq]
  · intro hc he hf
    simp [execute_query, connect_sap, hc, he, hf]

/-- Witness for C10 in the all-succeeding empty environment. -/
theorem claim_C10_witness :
    execute_query emptyEnv "JDE" "SELECT 1" ⟨[], [], some [], none⟩ =
      ((true, .table .emptyDF, 0),
        [.connectAttempt, .connectOpen, .execCall, .fetchCall,
          .cursorClose, .connClose]) ∧
    execute_query emptyEnv "Salesforce" "SELECT 1" ⟨[], [], none, some []⟩ =
      ((true, .table .emptyDF, 0), [.connectAttempt, .connectOpen, .execCall]) ∧
    execute_query emptyEnv "SAP" "SELECT 1" ⟨[], [], some [], none⟩ =
      ((true, .table .emptyDF, 0),
        [.connectAttempt, .connectOpen, .execCall, .fetchCall,
          .cursorClose, .connClose]) :=
  ⟨(claim_C10 emptyEnv "SELECT 1" [] [] [] []).1 ⟨[], 1521, String.toList "ORCL"⟩
      rfl rfl rfl rfl,
    (claim_C10 emptyEnv "SELECT 1" [] [] [] []).2.1 rfl rfl,
    (claim_C10 emptyEnv "SELECT 1" [] [] [] []).2.2 rfl rfl rfl⟩

theorem jde_test_boundary (env : Env) (kw : Kwargs) :
    (test_connection env "JDE" kw).1 =
      (match jdeRaise env.oracle kw.host with
       | some e => (false, e)
       | none => (true, "Connection successful")) := by
  obtain ⟨u, p, ho, tok⟩ := kw
  cases ho with
  | none => rfl
  | some h =>
    cases hp : parseOracleHost h (some 1521) none with
    | error e => simp [test_connection, connect_oracle, jdeRaise, hp]
    | ok t =>
      cases hc : env.oracle.connectResult with
      | error e => simp [test_connection, connect_oracle, jdeRaise, hp, hc]
      | ok uc =>
        cases he : env.oracle.execResult with
        | error e => simp [test_connection, connect_oracle, jdeRaise, hp, hc, he]
        | ok ue =>
          cases hf : env.oracle.fetchRows with
          | error e => simp [test_connection, connect_oracle, jdeRaise, hp, hc, he, hf]
          | ok rows => simp [test_connection, connect_oracle, jdeRaise, hp, hc, he, hf]

theorem sf_test_boundary (env : Env) (kw : Kwargs) :
    (test_connection env "Salesforce" kw).1 =
      (match sfRaise env.sf kw.security_token with
       | some e => (false, e)
       | none => (true, "Connection successful")) := by
  obtain ⟨u, p, ho, tok⟩ := kw
  cases tok with
  | none => rfl
  | some t =>
    cases hc : env.sf.connectResult with
    | error e => simp [test_connection, connect_salesforce, sfRaise, hc]
    | ok uc =>
      cases hq : env.sf.queryRecords with
      | error e => simp [test_connection, connect_salesforce, sfRaise, hc, hq]
      | ok recs => simp [test_connection, connect_salesforce, sfRaise, hc, hq]

theorem sap_test_boundary (env : Env) (kw : Kwargs) :
    (test_connection env "SAP" kw).1 =
      (match sapRaise env.sap kw.host with
       | some e => (false, e)
       | none => (true, "Connection successful")) := by
  obtain ⟨u, p, ho, tok⟩ := kw
  cases ho with
  | none => rfl
  | some h =>
    cases hc : env.sap.connectResult with
    | error e => simp [test_connection, connect_sap, sapRaise, hc]
    | ok uc =>
      cases he : env.sap.execResult with
      | error e => simp [test_connection, connect_sap, sapRaise, hc, he]
      | ok ue =>
        cases hf : env.sap.fetchRows with
        | error e => simp [test_connection, connect_sap, sapRaise, hc, he, hf]
        | ok rows => simp [test_connection, connect_sap, sapRaise, hc, he, hf]

theorem jde_exec_boundary (env : Env) (q : String) (kw : Kwargs) :
    ((execute_query env "JDE" q kw).1.1 = true ↔ jdeRaise env.oracle kw.host = none) ∧
    (∀ e, jdeRaise env.oracle kw.host = some e →
      (execute_query env "JDE" q kw).1 =
        (false, .message ("Query execution failed: " ++ e), 0)) := by
  obtain ⟨u, p, ho, tok⟩ := kw
  cases ho with
  | none => exact ⟨by simp [execute_query, jdeRaise], by intro e he; cases he; rfl⟩
  | some h =>
    cases hp : parseOracleHost h (some 1521) none with
    | error e => simp [execute_query, connect_oracle, jdeRaise, hp]
    | ok t =>
      cases hc : env.oracle.connectResult with
      | error e => simp [execute_query, connect_oracle, jdeRaise, hp, hc]
      | ok uc =>
        cases he : env.oracle.execResult with
        | error e => simp [execute_query, connect_oracle, jdeRaise, hp, hc, he]
        | ok ue =>
          cases hf : env.oracle.fetchRows with
          | error e => simp [execute_query, connect_oracle, jdeRaise, hp, hc, he, hf]
          | ok rows =>
            cases rows <;>
              simp [execute_query, connect_oracle, jdeRaise, hp, hc, he, hf]

theorem sf_exec_boundary (env : Env) (q : String) (kw : Kwargs) :
    ((execute_query env "Salesforce" q kw).1.1 = true ↔
      sfRaise env.sf kw.security_token = none) ∧
    (∀ e, sfRaise env.sf kw.security_token = some e →
      (execute_query env "Salesforce" q kw).1 =
        (false, .message ("Query execution failed: " ++ e), 0)) := by
  obtain ⟨u, p, ho, tok⟩ := kw
  cases tok with
  | none => exact ⟨by simp [execute_query, sfRaise], by intro e he; cases he; rfl⟩
  | some t =>
    cases hc : env.sf.connectResult with
    | error e => simp [execute_query, connect_salesforce, sfRaise, hc]
    | ok uc =>
      cases hq : env.sf.queryRecords with
      | error e => simp [execute_query, connect_salesforce, sfRaise, hc, hq]
      | ok recs =>
        cases recs <;>
          simp [execute_query, connect_salesforce, sfRaise, hc, hq]

theorem sap_exec_boundary (env : Env) (q : String) (kw : Kwargs) :
    ((execute_query env "SAP" q kw).1.1 = true ↔ sapRaise env.sap kw.host = none) ∧
    (∀ e, sapRaise env.sap kw.host = some e →
      (execute_query env "SAP" q kw).1 =
        (false, .message ("Query execution failed: " ++ e), 0)) := by
  obtain ⟨u, p, ho, tok⟩ := kw
  cases ho with
  | none => exact ⟨by simp [execute_query, sapRaise], by intro e he; cases he; rfl⟩
  | some h =>
    cases hc : env.sap.connectResult with
    | error e => simp [execute_query, connect_sap, sapRaise, hc]
    | ok uc =>
      cases he : env.sap.execResult with
      | error e => simp [execute_query, connect_sap, sapRaise, hc, he]
      | ok ue =>
        cases hf : env.sap.fetchRows with
        | error e => simp [execute_query, connect_sap, sapRaise, hc, he, hf]
        | ok rows =>
          cases rows <;>
            simp [execute_query, connect_sap, sapRaise, hc, he, hf]

/-- C3: every error raised by the underlying connect/execute/fetch call
inside `test_connection` or `execute_query` is caught at the operation
boundary and returned as a failure value — `success = false` with the
raised message as text (with the `Query execution failed: ` prefix in
`execute_query`) — and the operations succeed exactly when no step
raises.  Stated against the per-backend first-raised-exception
functions. -/
theorem claim_C3 : ∀ (env : Env) (kw : Kwargs) (q : String),
    ((test_connection env "JDE" kw).1 =
      (match jdeRaise env.oracle kw.host with
       | some e => (false, e)
       | none => (true, "Connection successful"))) ∧
    ((test_connection env "Salesforce" kw).1 =
      (match sfRaise env.sf kw.security_token with
       | some e => (false, e)
       | none => (true, "Connection successful"))) ∧
    ((test_connection env "SAP" kw).1 =
      (match sapRaise env.sap kw.host with
       | some e => (false, e)
       | none => (true, "Connection successful"))) ∧
    ((execute_query env "JDE" q kw).1.1 = true ↔ jdeRaise env.oracle kw.host = none) ∧
    ((execute_query env "Salesforce" q kw).1.1 = true ↔
      sfRaise env.sf kw.security_token = none) ∧
    ((execute_query env "SAP" q kw).1.1 = true ↔ sapRaise env.sap kw.host = none) ∧
    (∀ e, jdeRaise env.oracle kw.host = some e →
      (execute_query env "JDE" q kw).1 =
        (false, .message ("Query execution failed: " ++ e), 0)) ∧
    (∀ e, sfRaise env.sf kw.security_token = some e →
      (execute_query env "Salesforce" q kw).1 =
        (false, .message ("Query execution failed: " ++ e), 0)) ∧
    (∀ e, sapRaise env.sap kw.host = some e →
      (execute_query env "SAP" q kw).1 =
        (false, .message ("Query execution failed: " ++ e), 0)) := by
  intro env kw q
  exact ⟨jde_test_boundary env kw, sf_test_boundary env kw, sap_test_boundary env kw,
    (jde_exec_boundary env q kw).1, (sf_exec_boundary env q kw).1,
    (sap_exec_boundary env q kw).1, (jde_exec_boundary env q kw).2,
    (sf_exec_boundary env q kw).2, (sap_exec_boundary env q kw).2⟩

/-- Witness for C3: a concrete connect failure is returned as a caught
failure value by `execute_query`. -/
theorem claim_C3_witness :
    (execute_query ⟨⟨.error "ORA-12541: no listener", .ok (), [], .ok []⟩,
        emptySap, emptySf⟩ "JDE" "SELECT 1"
      ⟨[], [], some [], none⟩).1 =
      (false, .message
        ("Query execution failed: " ++ ("Oracle connection failed: " ++ "ORA-12541: no listener")),
        0) :=
  (claim_C3 ⟨⟨.error "ORA-12541: no listener", .ok (), [], .ok []⟩, emptySap, emptySf⟩
      ⟨[], [], some [], none⟩ "SELECT 1").2.2.2.2.2.2.1
    ("Oracle connection failed: " ++ "ORA-12541: no listener") rfl

/-- C1 counterexample: with a connect that succeeds and an execute that
raises, `test_connection` opens a connection (`connectOpen` is in the
trace) yet never calls `close` — the claim that close is invoked exactly
once whenever a connection was opened fails at this input. -/
theorem claim_C1_counterexample :
    DbEvent.connectOpen ∈ (test_connection execFailEnv "JDE"
      ⟨String.toList "NLBTEST", String.toList "pw",
        some (String.toList "10.1.1.1:1521/ORCLPDB"), none⟩).2 ∧
    closeCount (test_connection execFailEnv "JDE"
      ⟨String.toList "NLBTEST", String.toList "pw",
        some (String.toList "10.1.1.1:1521/ORCLPDB"), none⟩).2 = 0 ∧
    (test_connection execFailEnv "JDE"
      ⟨String.toList "NLBTEST", String.toList "pw",
        some (String.toList "10.1.1.1:1521/ORCLPDB"), none⟩).1.1 = false := by
  refine ⟨?_, ?_, ?_⟩ <;> decide

/-- C1 amended: on the Oracle-family and SAP paths of both operations,
`close` is invoked exactly once on the fully successful path and never
otherwise — in particular a connection opened before an execute or fetch
failure is left unclosed; on the Salesforce path no close is ever
invoked. -/
theorem claim_C1_amended : ∀ (env : Env) (u p h tok : Chars) (q : String),
    closeCount (test_connection env "JDE" ⟨u, p, some h, none⟩).2 =
      (if (test_connection env "JDE" ⟨u, p, some h, none⟩).1.1 then 1 else 0) ∧
    closeCount (execute_query env "JDE" q ⟨u, p, some h, none⟩).2 =
      (if (execute_query env "JDE" q ⟨u, p, some h, none⟩).1.1 then 1 else 0) ∧
    closeCount (test_connection env "SAP" ⟨u, p, some h, none⟩).2 =
      (if (test_connection env "SAP" ⟨u, p, some h, none⟩).1.1 then 1 else 0) ∧
    closeCount (execute_query env "SAP" q ⟨u, p, some h, none⟩).2 =
      (if (execute_query env "SAP" q ⟨u, p, some h, none⟩).1.1 then 1 else 0) ∧
    closeCount (test_connection env "Salesforce" ⟨u, p, none, some tok⟩).2 = 0 ∧
    closeCount (execute_query env "Salesforce" q ⟨u, p, none, some tok⟩).2 = 0 := by
  intro env u p h tok q
  refine ⟨?_, ?_, ?_, ?_, ?_, ?_⟩
  · cases hp : parseOracleHost h (some 1521) none with
    | error e => simp [test_connection, connect_oracle, closeCount, hp]
    | ok t =>
      cases hc : env.oracle.connectResult with
      | error e => simp [test_connection, connect_oracle, closeCount, hp, hc]
      | ok uc =>
        cases he : env.oracle.execResult with
        | error e => simp [test_connection, connect_oracle, closeCount, hp, hc, he]
        | ok ue =>
          cases hf : env.oracle.fetchRows with
          | error e => simp [test_connection, connect_oracle, closeCount, hp, hc, he, hf]
          | ok rows => simp [test_connection, connect_oracle, closeCount, hp, hc, he, hf]
  · cases hp : parseOracleHost h (some 1521) none with
    | error e => simp [execute_query, connect_oracle, closeCount, hp]
    | ok t =>
      cases hc : env.oracle.connectResult with
      | error e => simp [execute_query, connect_oracle, closeCount, hp, hc]
      | ok uc =>
        cases he : env.oracle.execResult with
        | error e => simp [execute_query, connect_oracle, closeCount, hp, hc, he]
        | ok ue =>
          cases hf : env.oracle.fetchRows with
          | error e => simp [execute_query, connect_oracle, closeCount, hp, hc, he, hf]
          | ok rows =>
            cases rows <;>
              simp [execute_query, connect_oracle, closeCount, hp, hc, he, hf]
  · cases hc : env.sap.connectResult with
    | error e => simp [test_connection, connect_sap, closeCount, hc]
    | ok uc =>
      cases he : env.sap.execResult with
      | error e => simp [test_connection, connect_sap, closeCount, hc, he]
      | ok ue =>
        cases hf : env.sap.fetchRows with
        | error e => simp [test_connection, connect_sap, closeCount, hc, he, hf]
        | ok rows => simp [test_connection, connect_sap, closeCount, hc, he, hf]
  · cases hc : env.sap.connectResult with
    | error e => simp [execute_query, connect_sap, closeCount, hc]
    | ok uc =>
      cases he : env.sap.execResult with
      | error e => simp [execute_query, connect_sap, closeCount, hc, he]
      | ok ue =>
        cases hf : env.sap.fetchRows with
        | error e => simp [execute_query, connect_sap, closeCount, hc, he, hf]
        | ok rows =>
          cases rows <;>
            simp [execute_query, connect_sap, closeCount, hc, he, hf]
  · cases hc : env.sf.connectResult with
    | error e => simp [test_connection, connect_salesforce, closeCount, hc]
    | ok uc =>
      cases hq : env.sf.queryRecords with
      | error e => simp [test_connection, connect_salesforce, closeCount, hc, hq]
      | ok recs => simp [test_connection, connect_salesforce, closeCount, hc, hq]
  · cases hc : env.sf.connectResult with
    | error e => simp [execute_query, connect_salesforce, closeCount, hc]
    | ok uc =>
      cases hq : env.sf.queryRecords with
      | error e => simp [execute_query, connect_salesforce, closeCount, hc, hq]
      | ok recs =>
        cases recs <;>
          simp [execute_query, connect_salesforce, closeCount, hc, hq]

/-- C6 counterexample: submitting the test action with blank username
and password triggers a real connection attempt (the probe even
succeeds) instead of failing with a missing-credential error — the
test path performs no blank-field validation. -/
theorem claim_C6_counterexample :
    (handle_test emptyEnv "JDE" (some "10.1.1.1:1521/ORCLPDB") "" "" "").1 =
      (true, "Connection successful") ∧
    DbEvent.connectAttempt ∈
      (handle_test emptyEnv "JDE" (some "10.1.1.1:1521/ORCLPDB") "" "" "").2 := by
  refine ⟨?_, ?_⟩ <;> decide

/-- C6 amended: only the save operation validates required fields — a
blank required field makes `handle_save` stop with the
missing-fields error (before any store write), for the Salesforce field
set and the host-based field set alike; the test operation performs no
such validation: even with every credential blank it hands the bag to
the connector and a connection attempt occurs. -/
theorem claim_C6_amended : ∀ (m : Registry) (dt pool : String)
    (host : Option String) (u pw : String) (tok : Option String) (env : Env),
    (dt = "Salesforce" →
      (pool = "" ∨ u = "" ∨ pw = "" ∨ pyTruthy tok = false) →
      handle_save m dt pool host u pw tok =
        .validationError "Please fill in all required fields") ∧
    (dt ≠ "Salesforce" →
      (pool = "" ∨ pyTruthy host = false ∨ u = "" ∨ pw = "") →
      handle_save m dt pool host u pw tok =
        .validationError "Please fill in all required fields") ∧
    (∀ h : String, '/' ∉ h.data →
      DbEvent.connectAttempt ∈ (handle_test env "JDE" (some h) "" "" "").2) := by
  intro m dt pool host u pw tok env
  refine ⟨?_, ?_, ?_⟩
  · intro hdt hb
    subst hdt
    unfold handle_save
    rw [if_pos rfl]
    split_ifs with hcond
    · exfalso
      rcases hb with hx | hx | hx | hx
      · exact hcond.1 hx
      · exact hcond.2.1 hx
      · exact hcond.2.2.1 hx
      · rw [hx] at hcond
        exact Bool.false_ne_true hcond.2.2.2
    · rfl
  · intro hdt hb
    unfold handle_save
    rw [if_neg hdt]
    split_ifs with hcond
    · exfalso
      rcases hb with hx | hx | hx | hx
      · exact hcond.1 hx
      · rw [hx] at hcond
        exact Bool.false_ne_true hcond.2.1
      · exact hcond.2.2.1 hx
      · exact hcond.2.2.2 hx
    · rfl
  · intro h hnb
    have hs : splitFirst '/' h.data = none := (splitFirst_eq_none '/' h.data).mpr hnb
    have hp : parseOracleHost h.data (some 1521) none =
        .ok ⟨h.data, 1521, String.toList "ORCL"⟩ := by
      simp [parseOracleHost, hs, pyOrNat, pyOrChars]
    cases hc : env.oracle.connectResult with
    | error e => simp [handle_test, test_connection, connect_oracle, hp, hc]
    | ok uc =>
      cases he : env.oracle.execResult with
      | error e => simp [handle_test, test_connection, connect_oracle, hp, hc, he]
      | ok ue =>
        cases hf : env.oracle.fetchRows with
        | error e => simp [handle_test, test_connection, connect_oracle, hp, hc, he, hf]
        | ok rows => simp [handle_test, test_connection, connect_oracle, hp, hc, he, hf]

/-- Witness for C6 amended: a blank pool name makes the save handler
stop with the validation error. -/
theorem claim_C6_witness :
    handle_save [] "JDE" "" (some "10.1.1.1:1521/ORCLPDB") "NLBTEST" "pw" none =
      .validationError "Please fill in all required fields" :=
  (claim_C6_amended [] "JDE" "" (some "10.1.1.1:1521/ORCLPDB") "NLBTEST" "pw" none
      emptyEnv).2.1 (by decide) (Or.inl rfl)

end DbConnector
